import Mathlib

/-!
Verification of the PhishBI backend proxy (`backend-server.js`).

The server is an Express application with two routes:
  * `POST /api/generate-story` forwards the caller-supplied JSON body to an
    upstream chat API (one `fetch` per request) and relays the reply;
  * `GET /health` returns a constant liveness payload.
At startup the process exits when the `ANTHROPIC_API_KEY` environment
variable is falsy.

The embedding models JSON values with the inductive type `Json`, the
runtime library functions `JSON.stringify` / `JSON.parse` with `stringify`
and `parseJson` (JSON numbers are modelled as integers; fractional number
literals fall outside the modelled fragment and fail to parse), JavaScript
property and index access (including the `TypeError` thrown on
`undefined`/`null` bases) with `getProp` / `getIndex` over `JsVal`, and the
request handler as a pure function from the request body and the upstream
reply to the trace of outbound requests together with the HTTP response.
-/

namespace PhishBI

/-- A JSON value, as produced by the JavaScript JSON parser: object fields
keep their textual order. -/
inductive Json where
  | null
  | bool (b : Bool)
  | num (n : Int)
  | str (s : String)
  | arr (elems : List Json)
  | obj (fields : List (String × Json))

/-- Hexadecimal digit characters, used when escaping control characters. -/
def hexDigitChar (n : Nat) : Char :=
  if n = 0 then '0' else if n = 1 then '1' else if n = 2 then '2'
  else if n = 3 then '3' else if n = 4 then '4' else if n = 5 then '5'
  else if n = 6 then '6' else if n = 7 then '7' else if n = 8 then '8'
  else if n = 9 then '9' else if n = 10 then 'a' else if n = 11 then 'b'
  else if n = 12 then 'c' else if n = 13 then 'd' else if n = 14 then 'e'
  else 'f'

/-- Escaping of a single character inside a JSON string literal, following
`JSON.stringify`. -/
def escapeChar (c : Char) : String :=
  if c = '"' then "\\\""
  else if c = '\\' then "\\\\"
  else if c = '\n' then "\\n"
  else if c = '\r' then "\\r"
  else if c = '\t' then "\\t"
  else if c = Char.ofNat 8 then "\\b"
  else if c = Char.ofNat 12 then "\\f"
  else if c.toNat < 32 then
    "\\u00" ++ String.mk [hexDigitChar (c.toNat / 16), hexDigitChar (c.toNat % 16)]
  else String.singleton c

/-- A JSON string literal: quotes around the escaped characters. -/
def quoteString (s : String) : String :=
  "\"" ++ String.join (s.data.map escapeChar) ++ "\""

mutual

/-- Model of `JSON.stringify`: minimal whitespace-free serialization,
object fields in order. -/
def stringify : Json → String
  | Json.null => "null"
  | Json.bool b => if b then "true" else "false"
  | Json.num n => toString n
  | Json.str s => quoteString s
  | Json.arr es => "[" ++ stringifyElems es ++ "]"
  | Json.obj fs => "\x7b" ++ stringifyFields fs ++ "\x7d"

/-- Comma-separated serialization of array elements. -/
def stringifyElems : List Json → String
  | [] => ""
  | [j] => stringify j
  | j :: rest => stringify j ++ "," ++ stringifyElems rest

/-- Comma-separated serialization of object fields. -/
def stringifyFields : List (String × Json) → String
  | [] => ""
  | [(k, v)] => quoteString k ++ ":" ++ stringify v
  | (k, v) :: rest => quoteString k ++ ":" ++ stringify v ++ "," ++ stringifyFields rest

end

/-- JSON whitespace. -/
def isWs (c : Char) : Bool :=
  c = ' ' || c = '\t' || c = '\n' || c = '\r'

/-- Drop leading JSON whitespace. -/
def skipWs : List Char → List Char
  | [] => []
  | c :: rest => if isWs c then skipWs rest else c :: rest

/-- Value of a hexadecimal digit, if any. -/
def hexVal (c : Char) : Option Nat :=
  if c.isDigit then some (c.toNat - 48)
  else if 'a' ≤ c && c ≤ 'f' then some (c.toNat - 97 + 10)
  else if 'A' ≤ c && c ≤ 'F' then some (c.toNat - 65 + 10)
  else none

/-- Decoding of the single-character escapes of JSON string literals. -/
def escDecode (c : Char) : Option Char :=
  if c = '"' then some '"'
  else if c = '\\' then some '\\'
  else if c = '/' then some '/'
  else if c = 'n' then some '\n'
  else if c = 't' then some '\t'
  else if c = 'r' then some '\r'
  else if c = 'b' then some (Char.ofNat 8)
  else if c = 'f' then some (Char.ofNat 12)
  else none

/-- Body of a JSON string literal (after the opening quote), fueled by the
remaining length. Returns the decoded characters and the rest of the
input. Raw control characters are rejected, as in strict JSON. -/
def parseStringBody : Nat → List Char → Option (List Char × List Char)
  | 0, _ => none
  | _, [] => none
  | fuel + 1, c :: rest =>
    if c = '"' then some ([], rest)
    else if c = '\\' then
      match rest with
      | [] => none
      | e :: rest2 =>
        if e = 'u' then
          match rest2 with
          | h1 :: h2 :: h3 :: h4 :: rest3 =>
            match hexVal h1, hexVal h2, hexVal h3, hexVal h4 with
            | some a, some b, some c2, some d =>
              match parseStringBody fuel rest3 with
              | some (l, r) => some (Char.ofNat (((a * 16 + b) * 16 + c2) * 16 + d) :: l, r)
              | none => none
            | _, _, _, _ => none
          | _ => none
        else
          match escDecode e with
          | some ch =>
            match parseStringBody fuel rest2 with
            | some (l, r) => some (ch :: l, r)
            | none => none
          | none => none
    else if c.toNat < 32 then none
    else
      match parseStringBody fuel rest with
      | some (l, r) => some (c :: l, r)
      | none => none

/-- Split a maximal run of decimal digits off the front of the input. -/
def takeDigits : List Char → List Char × List Char
  | [] => ([], [])
  | c :: rest =>
    if c.isDigit then
      let (d, r) := takeDigits rest
      (c :: d, r)
    else ([], c :: rest)

/-- Decimal value of a digit run. -/
def digitsToNat : List Char → Nat → Nat
  | [], acc => acc
  | c :: rest, acc => digitsToNat rest (acc * 10 + (c.toNat - 48))

/-- A digit run with a superfluous leading zero, rejected by strict JSON
(a lone `0` is fine, `01` is not). -/
def leadingZero : List Char → Bool
  | '0' :: _ :: _ => true
  | _ => false

mutual

/-- Fueled recursive-descent parser for a single JSON value; returns the
value and the unconsumed input. -/
def parseVal : Nat → List Char → Option (Json × List Char)
  | 0, _ => none
  | fuel + 1, cs =>
    match skipWs cs with
    | 'n' :: 'u' :: 'l' :: 'l' :: rest => some (Json.null, rest)
    | 't' :: 'r' :: 'u' :: 'e' :: rest => some (Json.bool true, rest)
    | 'f' :: 'a' :: 'l' :: 's' :: 'e' :: rest => some (Json.bool false, rest)
    | '"' :: rest =>
      match parseStringBody (rest.length + 1) rest with
      | some (l, r) => some (Json.str (String.mk l), r)
      | none => none
    | '[' :: rest =>
      match skipWs rest with
      | ']' :: rest2 => some (Json.arr [], rest2)
      | cs2 =>
        match parseElems fuel cs2 with
        | some (l, r) => some (Json.arr l, r)
        | none => none
    | '\x7b' :: rest =>
      match skipWs rest with
      | '\x7d' :: rest2 => some (Json.obj [], rest2)
      | cs2 =>
        match parseFields fuel cs2 with
        | some (l, r) => some (Json.obj l, r)
        | none => none
    | '-' :: rest =>
      match takeDigits rest with
      | ([], _) => none
      | (ds, r) =>
        if leadingZero ds then none
        else some (Json.num (-(digitsToNat ds 0 : Int)), r)
    | c :: rest =>
      if c.isDigit then
        match takeDigits (c :: rest) with
        | (ds, r) =>
          if leadingZero ds then none
          else some (Json.num (digitsToNat ds 0), r)
      else none
    | [] => none

/-- Comma-separated JSON array elements, up to and including the closing
bracket. -/
def parseElems : Nat → List Char → Option (List Json × List Char)
  | 0, _ => none
  | fuel + 1, cs =>
    match parseVal fuel cs with
    | none => none
    | some (j, rest) =>
      match skipWs rest with
      | ',' :: rest2 =>
        match parseElems fuel rest2 with
        | some (l, r) => some (j :: l, r)
        | none => none
      | ']' :: rest2 => some ([j], rest2)
      | _ => none

/-- Comma-separated JSON object fields, up to and including the closing
brace. -/
def parseFields : Nat → List Char → Option (List (String × Json) × List Char)
  | 0, _ => none
  | fuel + 1, cs =>
    match skipWs cs with
    | '"' :: rest =>
      match parseStringBody (rest.length + 1) rest with
      | none => none
      | some (kl, rest2) =>
        match skipWs rest2 with
        | ':' :: rest3 =>
          match parseVal fuel rest3 with
          | none => none
          | some (v, rest4) =>
            match skipWs rest4 with
            | ',' :: rest5 =>
              match parseFields fuel rest5 with
              | some (fs, r) => some ((String.mk kl, v) :: fs, r)
              | none => none
            | '\x7d' :: rest5 => some ([(String.mk kl, v)], rest5)
            | _ => none
        | _ => none
    | _ => none

end

/-- Model of `JSON.parse`: parse one value and require only whitespace to
remain. Failure is `none` (the JavaScript call throws a `SyntaxError`). -/
def parseJson (s : String) : Option Json :=
  match parseVal (s.length + 1) s.data with
  | some (j, rest) => if skipWs rest = [] then some j else none
  | none => none

/-- The message of the `SyntaxError` thrown by `JSON.parse` on invalid
input (the engine-specific position suffix is not modelled). -/
def jsonParseErrorMsg : String := "Unexpected token in JSON"

/-- A JavaScript expression value: either `undefined` or a JSON value.
This is the fragment the handler manipulates. -/
inductive JsVal where
  | undef
  | val (j : Json)

/-- Message of the `TypeError` thrown when reading a property of
`undefined`. -/
def tyErrUndef (k : String) : String :=
  "Cannot read properties of undefined (reading \x27" ++ k ++ "\x27)"

/-- Message of the `TypeError` thrown when reading a property of `null`. -/
def tyErrNull (k : String) : String :=
  "Cannot read properties of null (reading \x27" ++ k ++ "\x27)"

/-- JavaScript property access `v.k` (for plain data properties: built-in
properties such as `length` are not reached by the handler's keys).
Reading from `undefined` or `null` throws a `TypeError`; reading a missing
key of an object, or any key of a primitive, yields `undefined`. -/
def getProp : JsVal → String → Except String JsVal
  | JsVal.undef, k => Except.error (tyErrUndef k)
  | JsVal.val Json.null, k => Except.error (tyErrNull k)
  | JsVal.val (Json.obj fs), k =>
    Except.ok (match List.lookup k fs with
      | some j => JsVal.val j
      | none => JsVal.undef)
  | JsVal.val _, _ => Except.ok JsVal.undef

/-- JavaScript index access `v[i]`. Indexing `undefined` or `null` throws
a `TypeError`; arrays yield the element (or `undefined` past the end),
strings yield a one-character string, objects look up the numeric key. -/
def getIndex : JsVal → Nat → Except String JsVal
  | JsVal.undef, i => Except.error (tyErrUndef (toString i))
  | JsVal.val Json.null, i => Except.error (tyErrNull (toString i))
  | JsVal.val (Json.arr es), i =>
    Except.ok (match es.get? i with
      | some j => JsVal.val j
      | none => JsVal.undef)
  | JsVal.val (Json.str s), i =>
    Except.ok (match s.data.get? i with
      | some c => JsVal.val (Json.str (String.singleton c))
      | none => JsVal.undef)
  | JsVal.val (Json.obj fs), i =>
    Except.ok (match List.lookup (toString i) fs with
      | some j => JsVal.val j
      | none => JsVal.undef)
  | JsVal.val _, _ => Except.ok JsVal.undef

mutual

/-- JavaScript string coercion `String(j)` of a JSON value. -/
def jsPrimString : Json → String
  | Json.null => "null"
  | Json.bool b => if b then "true" else "false"
  | Json.num n => toString n
  | Json.str s => s
  | Json.arr es => jsArrJoin es
  | Json.obj _ => "[object Object]"

/-- JavaScript `Array.prototype.join` with the default comma separator;
`null` elements become the empty string. -/
def jsArrJoin : List Json → String
  | [] => ""
  | [Json.null] => ""
  | [j] => jsPrimString j
  | Json.null :: rest => "," ++ jsArrJoin rest
  | j :: rest => jsPrimString j ++ "," ++ jsArrJoin rest

end

/-- JavaScript string coercion of an expression value (`undefined` becomes
the string "undefined", as in `JSON.parse(undefined)`). -/
def jsToString : JsVal → String
  | JsVal.undef => "undefined"
  | JsVal.val j => jsPrimString j

/-- JavaScript truthiness of an expression value. -/
def truthy : JsVal → Bool
  | JsVal.undef => false
  | JsVal.val Json.null => false
  | JsVal.val (Json.bool b) => b
  | JsVal.val (Json.num n) => n != 0
  | JsVal.val (Json.str s) => s != ""
  | JsVal.val (Json.arr _) => true
  | JsVal.val (Json.obj _) => true

/-- The fixed system instruction sent with every upstream request
(`SYSTEM_PROMPT` in `backend-server.js`). -/
def SYSTEM_PROMPT : String := String.intercalate "\n" [
  "System Prompt: Phish Narrative Intelligence Engine",
  "You are a Phish performance and attendance analyst, not a fan chatbot and not a hype generator.",
  "Your job is to interpret a single user\x27s longitudinal Phish attendance and setlist data and produce clear, grounded narrative insights that explain patterns, shifts, and tendencies in their history.",
  "",
  "Core Principles (Non-Negotiable)",
  "* You analyze patterns, not moments",
  "* You explain why trends emerged, not just what happened",
  "* You avoid exaggeration, nostalgia bait, or fan clichés",
  "* You never speculate beyond the data provided",
  "* You never rank the user against others unless explicitly instructed",
  "* You do not use emojis, slang, or hype language",
  "* You do not moralize taste (\"good\", \"bad\", \"better\")",
  "* You never invent events, songs, or motivations",
  "",
  "You are calm, analytical, and observant — like a music historian reviewing a personal archive.",
  "",
  "Your Output Objective",
  "Produce a personalized narrative summary titled \"Your Phish Story\"",
  "",
  "Required Output Structure",
  "Your response must contain exactly 5 sections, in this order:",
  "",
  "1. Overall Arc",
  "2. Musical Tendencies",
  "3. Era Shifts & Inflection Points",
  "4. Venue & Geography Patterns",
  "5. What Makes This History Distinct",
  "",
  "Return ONLY a JSON object with this exact structure:",
  "\x7b",
  "  \"title\": \"Your Phish Story\",",
  "  \"overall_arc\": \x7b",
  "    \"summary\": \"...\",",
  "    \"confidence\": \"high|medium|low\"",
  "  \x7d,",
  "  \"musical_tendencies\": \x7b",
  "    \"summary\": \"...\",",
  "    \"confidence\": \"high|medium|low\"",
  "  \x7d,",
  "  \"era_shifts\": \x7b",
  "    \"summary\": \"...\",",
  "    \"confidence\": \"high|medium|low\"",
  "  \x7d,",
  "  \"venue_geography\": \x7b",
  "    \"summary\": \"...\",",
  "    \"confidence\": \"high|medium|low\"",
  "  \x7d,",
  "  \"distinctive_signature\": \x7b",
  "    \"summary\": \"...\",",
  "    \"confidence\": \"high|medium|low\"",
  "  \x7d",
  "\x7d"]

/-- A chat message of the upstream request body. -/
structure Message where
  role : String
  content : String
deriving DecidableEq

/-- The single outbound HTTP request issued by the handler (`fetch` in
`app.post`), with its JSON payload in structured form. -/
structure ChatRequest where
  url : String
  method : String
  headers : List (String × String)
  model : String
  maxTokens : Nat
  system : String
  messages : List Message
deriving DecidableEq

/-- The outbound request built from the API key and the caller's JSON
body, exactly as in the `fetch` call of `backend-server.js`. -/
def mkChatRequest (apiKey : String) (reqBody : Json) : ChatRequest where
  url := "https://api.anthropic.com/v1/messages"
  method := "POST"
  headers := [("Content-Type", "application/json"),
              ("x-api-key", apiKey),
              ("anthropic-version", "2023-06-01")]
  model := "claude-sonnet-4-20250514"
  maxTokens := 2000
  system := SYSTEM_PROMPT
  messages := [⟨"user", stringify reqBody⟩]

/-- A completed upstream HTTP exchange: the status code and the raw
response body text. -/
structure UpstreamReply where
  status : Nat
  body : String

/-- The HTTP response sent back to the caller; its JSON body is modelled
as a `Json` value (`res.json` serializes it). -/
structure Response where
  status : Nat
  body : Json

/-- The `response.ok` predicate of `fetch`: status in [200, 300). -/
def responseOk (status : Nat) : Bool :=
  200 ≤ status && status < 300

/-- The catch handler of `app.post`: status 500 with
`error.message || 'Internal server error'` (the fallback fires when the
message is the empty string, which is falsy). -/
def catchResponse (m : String) : Response :=
  ⟨500, Json.obj [("error", Json.str (if m = "" then "Internal server error" else m))]⟩

/-- Evaluation of `errorData.error?.message`: optional chaining yields
`undefined` on `undefined`/`null`, otherwise an ordinary property read
(which cannot throw, the base being neither `undefined` nor `null`). -/
def optChainMessage : JsVal → JsVal
  | JsVal.undef => JsVal.undef
  | JsVal.val Json.null => JsVal.undef
  | JsVal.val (Json.obj fs) =>
    (match List.lookup "message" fs with
      | some j => JsVal.val j
      | none => JsVal.undef)
  | JsVal.val _ => JsVal.undef

/-- The value placed in the `error` field of a non-success relay:
`m || 'Claude API request failed'` for the extracted message `m`. -/
def errField : JsVal → Json
  | JsVal.val j => if truthy (JsVal.val j) then j else Json.str "Claude API request failed"
  | JsVal.undef => Json.str "Claude API request failed"

/-- The non-success branch of the handler: `await response.json()` on the
upstream error body (a parse failure throws to the catch handler), then
the `error` field is `errorData.error?.message || 'Claude API request
failed'`. -/
def errorReplyBody (bodyText : String) : Except String Json :=
  match parseJson bodyText with
  | none => Except.error jsonParseErrorMsg
  | some errorData =>
    match getProp (JsVal.val errorData) "error" with
    | Except.error m => Except.error m
    | Except.ok e => Except.ok (errField (optChainMessage e))

/-- The success branch of the handler up to the parsed story:
`data = await response.json()`, `storyText = data.content[0].text`,
`storyJSON = JSON.parse(storyText)`. Any failure carries the message of
the thrown error. -/
def extractStory (bodyText : String) : Except String Json :=
  match parseJson bodyText with
  | none => Except.error jsonParseErrorMsg
  | some data =>
    match getProp (JsVal.val data) "content" with
    | Except.error m => Except.error m
    | Except.ok c =>
      match getIndex c 0 with
      | Except.error m => Except.error m
      | Except.ok b =>
        match getProp b "text" with
        | Except.error m => Except.error m
        | Except.ok t =>
          match parseJson (jsToString t) with
          | none => Except.error jsonParseErrorMsg
          | some j => Except.ok j

/-- The response produced for a given upstream reply: on `response.ok`,
relay the parsed story with status 200 (`res.json` defaults to 200);
otherwise relay the upstream status with the extracted error message.
Thrown errors reach the catch handler. The upstream reply alone
determines the response (the caller's body is only used in the outbound
request). -/
def routeReply (reply : UpstreamReply) : Response :=
  if responseOk reply.status then
    match extractStory reply.body with
    | Except.ok j => ⟨200, j⟩
    | Except.error m => catchResponse m
  else
    match errorReplyBody reply.body with
    | Except.ok e => ⟨reply.status, Json.obj [("error", e)]⟩
    | Except.error m => catchResponse m

/-- The `POST /api/generate-story` handler: one outbound request, then
the response computed from the upstream reply. The first component is
the trace of outbound upstream requests issued during the call. -/
def handleGenerateStory (apiKey : String) (reqBody : Json) (reply : UpstreamReply) :
    List ChatRequest × Response :=
  ([mkChatRequest apiKey reqBody], routeReply reply)

/-- The configuration read from the environment at process start; the
handler reads (and never writes) it. -/
structure ServerConfig where
  apiKey : String
deriving DecidableEq

/-- The `GET /health` handler: a constant liveness payload, independent
of the server configuration. -/
def handleHealth (_cfg : ServerConfig) : Response :=
  ⟨200, Json.obj [("status", Json.str "ok"),
                  ("message", Json.str "Phish Story Backend is running!")]⟩

/-- One request served against the current process state: the handler
touches no mutable state, so the configuration comes back unchanged. -/
def handleStep (cfg : ServerConfig) (r : Json × UpstreamReply) : ServerConfig × Response :=
  (cfg, (handleGenerateStory cfg.apiKey r.1 r.2).2)

/-- A sequence of proxy requests served in order, threading the process
state through the steps. -/
def serveAll (cfg : ServerConfig) : List (Json × UpstreamReply) → List Response
  | [] => []
  | r :: rest => (handleStep cfg r).2 :: serveAll (handleStep cfg r).1 rest

/-- JavaScript falsiness of an environment variable: unset, or set to the
empty string. -/
def envFalsy : Option String → Bool
  | none => true
  | some s => s == ""

/-- Outcome of process start: `exit(code)` before any socket is opened,
or a listening server. -/
inductive StartupResult where
  | exited (code : Nat)
  | listening (port : String)
deriving DecidableEq

/-- Process startup of `backend-server.js`: `process.exit(1)` when
`ANTHROPIC_API_KEY` is falsy, otherwise `app.listen` on
`process.env.PORT || 3001`. -/
def startServer (env : List (String × String)) : StartupResult :=
  if envFalsy (List.lookup "ANTHROPIC_API_KEY" env) then
    StartupResult.exited 1
  else
    StartupResult.listening
      (match List.lookup "PORT" env with
        | some p => if p == "" then "3001" else p
        | none => "3001")

/-- The expected shape of a confidence label, from the structure the
system prompt requests. -/
def isConfidence : Json → Bool
  | Json.str s => s == "high" || s == "medium" || s == "low"
  | _ => false

/-- The expected shape of one story section: a free-text summary and a
confidence label. -/
def sectionOk : Json → Bool
  | Json.obj fs =>
    (match List.lookup "summary" fs with
      | some (Json.str _) => true
      | _ => false)
    && (match List.lookup "confidence" fs with
      | some c => isConfidence c
      | none => false)
  | _ => false

/-- Concrete sample story used to exercise the success path. -/
def sampleStory : Json := Json.obj [
  ("title", Json.str "Your Phish Story"),
  ("overall_arc", Json.obj [("summary", Json.str "Steady growth."), ("confidence", Json.str "high")]),
  ("musical_tendencies", Json.obj [("summary", Json.str "Jam heavy."), ("confidence", Json.str "medium")]),
  ("era_shifts", Json.obj [("summary", Json.str "Era 3 pivot."), ("confidence", Json.str "low")]),
  ("venue_geography", Json.obj [("summary", Json.str "Northeast."), ("confidence", Json.str "high")]),
  ("distinctive_signature", Json.obj [("summary", Json.str "Holiday runs."), ("confidence", Json.str "high")])]

/-- Serialized form of the sample story, as the upstream model would emit
it in its first content block. -/
def sampleStoryText : String := stringify sampleStory

/-- Fields of a well-shaped upstream success body around the sample
story. -/
def sampleUpstreamFields : List (String × Json) :=
  [("content", Json.arr [Json.obj [("text", Json.str sampleStoryText)]])]

/-- A well-shaped upstream success body carrying the sample story. -/
def sampleUpstreamBody : String := stringify (Json.obj sampleUpstreamFields)

/-- A well-formed upstream error body carrying a message string. -/
def sampleErrorBody : String :=
  stringify (Json.obj [("error", Json.obj [("message", Json.str "Invalid API key")])])

/-- An upstream error body whose `error.message` is a (truthy) number
rather than a string. -/
def numericMessageErrorBody : String :=
  stringify (Json.obj [("error", Json.obj [("message", Json.num 42)])])

/-- The five-section story object described by the system prompt: the
five named sections, each well-shaped. -/
def fiveSectionStory : Json → Bool
  | Json.obj fs =>
    (match List.lookup "overall_arc" fs with
      | some s => sectionOk s
      | none => false)
    && (match List.lookup "musical_tendencies" fs with
      | some s => sectionOk s
      | none => false)
    && (match List.lookup "era_shifts" fs with
      | some s => sectionOk s
      | none => false)
    && (match List.lookup "venue_geography" fs with
      | some s => sectionOk s
      | none => false)
    && (match List.lookup "distinctive_signature" fs with
      | some s => sectionOk s
      | none => false)
  | _ => false

/-- A string that starts with a nonempty prefix is nonempty. -/
theorem append3_ne_empty (a k b : String) (h : 0 < a.length) : a ++ k ++ b ≠ "" := by
  intro hc
  have h2 := congrArg String.length hc
  have h0 : ("" : String).length = 0 := rfl
  rw [String.length_append, String.length_append, h0] at h2
  omega

/-- The `TypeError` message for property reads on `undefined` is
nonempty. -/
theorem tyErrUndef_ne_empty (k : String) : tyErrUndef k ≠ "" :=
  append3_ne_empty _ _ _ (by decide)

/-- The `TypeError` message for property reads on `null` is nonempty. -/
theorem tyErrNull_ne_empty (k : String) : tyErrNull k ≠ "" :=
  append3_ne_empty _ _ _ (by decide)

/-- The `SyntaxError` message of the modelled `JSON.parse` is nonempty. -/
theorem jsonParseErrorMsg_ne_empty : jsonParseErrorMsg ≠ "" := by decide

/-- Property access only throws errors with nonempty messages. -/
theorem getProp_error_ne_empty (v : JsVal) (k m : String)
    (h : getProp v k = Except.error m) : m ≠ "" := by
  cases v with
  | undef =>
    simp [getProp] at h
    exact h ▸ tyErrUndef_ne_empty k
  | val j =>
    cases j with
    | null =>
      simp [getProp] at h
      exact h ▸ tyErrNull_ne_empty k
    | bool b => simp [getProp] at h
    | num n => simp [getProp] at h
    | str s => simp [getProp] at h
    | arr es => simp [getProp] at h
    | obj fs => simp [getProp] at h

/-- Index access only throws errors with nonempty messages. -/
theorem getIndex_error_ne_empty (v : JsVal) (i : Nat) (m : String)
    (h : getIndex v i = Except.error m) : m ≠ "" := by
  cases v with
  | undef =>
    simp [getIndex] at h
    exact h ▸ tyErrUndef_ne_empty (toString i)
  | val j =>
    cases j with
    | null =>
      simp [getIndex] at h
      exact h ▸ tyErrNull_ne_empty (toString i)
    | bool b => simp [getIndex] at h
    | num n => simp [getIndex] at h
    | str s => simp [getIndex] at h
    | arr es => simp [getIndex] at h
    | obj fs => simp [getIndex] at h

/-- Every failure of the success-path extraction carries a nonempty error
message. -/
theorem extractStory_error_ne_empty (s m : String)
    (h : extractStory s = Except.error m) : m ≠ "" := by
  unfold extractStory at h
  cases hp : parseJson s with
  | none =>
    rw [hp] at h
    simp at h
    exact h ▸ jsonParseErrorMsg_ne_empty
  | some data =>
    rw [hp] at h
    dsimp only at h
    cases hc : getProp (JsVal.val data) "content" with
    | error e =>
      rw [hc] at h
      dsimp only at h
      simp at h
      exact h ▸ getProp_error_ne_empty _ _ _ hc
    | ok c =>
      rw [hc] at h
      dsimp only at h
      cases hb : getIndex c 0 with
      | error e =>
        rw [hb] at h
        dsimp only at h
        simp at h
        exact h ▸ getIndex_error_ne_empty _ _ _ hb
      | ok b =>
        rw [hb] at h
        dsimp only at h
        cases ht : getProp b "text" with
        | error e =>
          rw [ht] at h
          dsimp only at h
          simp at h
          exact h ▸ getProp_error_ne_empty _ _ _ ht
        | ok t =>
          rw [ht] at h
          dsimp only at h
          cases hj : parseJson (jsToString t) with
          | none =>
            rw [hj] at h
            simp at h
            exact h ▸ jsonParseErrorMsg_ne_empty
          | some j =>
            rw [hj] at h
            simp at h

/-- A non-success status is never 200. -/
theorem responseOk_false_ne_200 (s : Nat) (h : responseOk s = false) : s ≠ 200 := by
  intro hc
  subst hc
  simp [responseOk] at h

/-- A falsy extracted message yields the fallback error value. -/
theorem errField_not_truthy (v : JsVal) (h : truthy v = false) :
    errField v = Json.str "Claude API request failed" := by
  cases v with
  | undef => rfl
  | val j => simp [errField, h]

/-- C1: every call issues exactly one outbound upstream request; its
single user message's content is the JSON serialization of the caller's
body, its system field is the fixed instruction text, and this holds for
any JSON body (no validation). -/
theorem generateStory_single_upstream_call (key : String) (body : Json) (reply : UpstreamReply) :
    (handleGenerateStory key body reply).1 = [mkChatRequest key body]
    ∧ (mkChatRequest key body).messages = [⟨"user", stringify body⟩]
    ∧ (mkChatRequest key body).system = SYSTEM_PROMPT :=
  ⟨rfl, rfl, rfl⟩

/-- C2: when the upstream status is a success and the first content
block's text parses as a valid five-section JSON object, the handler
responds 200 with exactly that object. -/
theorem success_relays_story (key : String) (body : Json) (status : Nat) (bodyText : String)
    (fs gs : List (String × Json)) (blocks : List Json) (t : String) (j : Json)
    (hok : responseOk status = true)
    (hp : parseJson bodyText = some (Json.obj fs))
    (hc : List.lookup "content" fs = some (Json.arr (Json.obj gs :: blocks)))
    (ht : List.lookup "text" gs = some (Json.str t))
    (hj : parseJson t = some j)
    (_hfive : fiveSectionStory j = true) :
    (handleGenerateStory key body ⟨status, bodyText⟩).2 = ⟨200, j⟩ := by
  simp [handleGenerateStory, routeReply, hok, extractStory, hp, getProp, hc, getIndex,
        List.get?_cons_zero, ht, jsToString, jsPrimString, hj]

set_option maxRecDepth 100000 in
/-- C2 witness: a concrete success reply carrying the sample story is
relayed unchanged with status 200. -/
theorem success_relays_story_witness :
    (handleGenerateStory "key" Json.null ⟨200, sampleUpstreamBody⟩).2 = ⟨200, sampleStory⟩ :=
  success_relays_story "key" Json.null 200 sampleUpstreamBody sampleUpstreamFields
    [("text", Json.str sampleStoryText)] [] sampleStoryText sampleStory
    rfl rfl rfl rfl rfl rfl

/-- C3 counterexample: an upstream 401 whose error body is not JSON is
answered with status 500, not with the upstream's 401. -/
theorem error_status_propagated_counterexample :
    (handleGenerateStory "key" Json.null ⟨401, "upstream failure"⟩).2.status = 500
    ∧ (handleGenerateStory "key" Json.null ⟨401, "upstream failure"⟩).2.status ≠ 401 := by
  decide

/-- C3 amended: for every non-success upstream status whose error body
parses as a JSON object, the upstream status code is propagated and the
body is an object with a single `error` field; the field is the
upstream-supplied `error.message` whenever that is a nonempty string,
and the fallback message whenever the error body lacks a truthy message
(no `error` key, a non-object `error`, an empty or falsy `message`, and
so on). -/
theorem error_status_propagated (key : String) (body : Json) (status : Nat)
    (errBody : String) (fs : List (String × Json))
    (hok : responseOk status = false)
    (hp : parseJson errBody = some (Json.obj fs)) :
    (∃ v, (handleGenerateStory key body ⟨status, errBody⟩).2
        = ⟨status, Json.obj [("error", v)]⟩)
    ∧ (∀ gs mgs, List.lookup "error" fs = some (Json.obj gs) →
      List.lookup "message" gs = some (Json.str mgs) → mgs ≠ "" →
      (handleGenerateStory key body ⟨status, errBody⟩).2
        = ⟨status, Json.obj [("error", Json.str mgs)]⟩)
    ∧ (truthy (optChainMessage (match List.lookup "error" fs with
          | some j => JsVal.val j
          | none => JsVal.undef)) = false →
      (handleGenerateStory key body ⟨status, errBody⟩).2
        = ⟨status, Json.obj [("error", Json.str "Claude API request failed")]⟩) := by
  refine ⟨?_, ?_, ?_⟩
  · exact ⟨errField (optChainMessage (match List.lookup "error" fs with
      | some j => JsVal.val j
      | none => JsVal.undef)),
      by simp [handleGenerateStory, routeReply, hok, errorReplyBody, hp, getProp]⟩
  · intro gs mgs he hm hne
    simp [handleGenerateStory, routeReply, hok, errorReplyBody, hp, getProp, he,
          optChainMessage, hm, errField, truthy, hne]
  · intro hf
    simp [handleGenerateStory, routeReply, hok, errorReplyBody, hp, getProp,
          errField_not_truthy _ hf]

/-- C3 witness: an upstream 401 with a JSON error body is propagated as a
401 carrying the upstream's message. -/
theorem error_status_propagated_witness :
    (handleGenerateStory "key" Json.null ⟨401, sampleErrorBody⟩).2
      = ⟨401, Json.obj [("error", Json.str "Invalid API key")]⟩ :=
  (error_status_propagated "key" Json.null 401 sampleErrorBody
      [("error", Json.obj [("message", Json.str "Invalid API key")])] rfl rfl).2.1
    [("message", Json.str "Invalid API key")] "Invalid API key" rfl rfl (by decide)

/-- C4: a success-status reply whose body is malformed (no JSON, missing
block, or non-JSON block text) is caught and answered 500 with the
nonempty message of the underlying error, and the upstream is still
called exactly once (no retry). -/
theorem malformed_success_500 (key : String) (body : Json) (status : Nat)
    (bodyText : String) (m : String)
    (hok : responseOk status = true)
    (he : extractStory bodyText = Except.error m) :
    (handleGenerateStory key body ⟨status, bodyText⟩).2
      = ⟨500, Json.obj [("error", Json.str m)]⟩
    ∧ m ≠ ""
    ∧ (handleGenerateStory key body ⟨status, bodyText⟩).1 = [mkChatRequest key body] := by
  have hne : m ≠ "" := extractStory_error_ne_empty bodyText m he
  refine ⟨?_, hne, rfl⟩
  simp [handleGenerateStory, routeReply, hok, he, catchResponse, hne]

/-- C4 witness: a success reply whose body is not JSON yields a 500 with
the parse error's message. -/
theorem malformed_success_500_witness :
    (handleGenerateStory "key" Json.null ⟨200, "not json"⟩).2
      = ⟨500, Json.obj [("error", Json.str jsonParseErrorMsg)]⟩
    ∧ jsonParseErrorMsg ≠ ""
    ∧ (handleGenerateStory "key" Json.null ⟨200, "not json"⟩).1
      = [mkChatRequest "key" Json.null] :=
  malformed_success_500 "key" Json.null 200 "not json" jsonParseErrorMsg rfl rfl

/-- C5: when the credential environment variable is absent the process
exits with code 1 and never reaches a listening socket. -/
theorem missing_credential_exits (env : List (String × String))
    (h : List.lookup "ANTHROPIC_API_KEY" env = none) :
    startServer env = StartupResult.exited 1
    ∧ ∀ p, startServer env ≠ StartupResult.listening p := by
  constructor
  · simp [startServer, envFalsy, h]
  · intro p hc
    simp [startServer, envFalsy, h] at hc

/-- C5 witness: an environment with only a port set makes startup exit. -/
theorem missing_credential_exits_witness :
    startServer [("PORT", "8080")] = StartupResult.exited 1
    ∧ ∀ p, startServer [("PORT", "8080")] ≠ StartupResult.listening p :=
  missing_credential_exits [("PORT", "8080")] rfl

/-- C6 counterexample: an upstream 304 with a JSON error body whose
`error.message` is the number 42 is relayed with status 304 — neither a
200 nor a 4xx/5xx — and with a non-string `error` value. -/
theorem response_shape_counterexample :
    (handleGenerateStory "key" Json.null ⟨304, numericMessageErrorBody⟩).2.body
      = Json.obj [("error", Json.num 42)]
    ∧ (handleGenerateStory "key" Json.null ⟨304, numericMessageErrorBody⟩).2.status = 304
    ∧ ¬((handleGenerateStory "key" Json.null ⟨304, numericMessageErrorBody⟩).2.status = 200
        ∨ (400 ≤ (handleGenerateStory "key" Json.null ⟨304, numericMessageErrorBody⟩).2.status
            ∧ (handleGenerateStory "key" Json.null ⟨304, numericMessageErrorBody⟩).2.status ≤ 599)) :=
  ⟨rfl, rfl, by decide⟩

/-- C6 amended: every response is either a 200 carrying exactly the JSON
value extracted from the upstream reply, or a non-200 response — with the
upstream's own (possibly 3xx) status or 500 — whose body is an object
with a single `error` field (not necessarily string-valued). -/
theorem response_shape (key : String) (body : Json) (reply : UpstreamReply) :
    ((handleGenerateStory key body reply).2.status = 200
      ∧ extractStory reply.body = Except.ok (handleGenerateStory key body reply).2.body)
    ∨ ((handleGenerateStory key body reply).2.status ≠ 200
      ∧ ((handleGenerateStory key body reply).2.status = reply.status
          ∨ (handleGenerateStory key body reply).2.status = 500)
      ∧ ∃ v, (handleGenerateStory key body reply).2.body = Json.obj [("error", v)]) := by
  by_cases hok : responseOk reply.status = true
  · cases he : extractStory reply.body with
    | ok j =>
      left
      constructor
      · simp [handleGenerateStory, routeReply, hok, he]
      · simp [handleGenerateStory, routeReply, hok, he]
    | error m =>
      right
      refine ⟨?_, Or.inr ?_, ?_⟩
      · simp [handleGenerateStory, routeReply, hok, he, catchResponse]
      · simp [handleGenerateStory, routeReply, hok, he, catchResponse]
      · exact ⟨Json.str (if m = "" then "Internal server error" else m),
          by simp [handleGenerateStory, routeReply, hok, he, catchResponse]⟩
  · rw [Bool.not_eq_true] at hok
    cases heb : errorReplyBody reply.body with
    | ok e =>
      right
      refine ⟨?_, Or.inl ?_, ?_⟩
      · simpa [handleGenerateStory, routeReply, hok, heb] using
          responseOk_false_ne_200 reply.status hok
      · simp [handleGenerateStory, routeReply, hok, heb]
      · exact ⟨e, by simp [handleGenerateStory, routeReply, hok, heb]⟩
    | error m =>
      right
      refine ⟨?_, Or.inr ?_, ?_⟩
      · simp [handleGenerateStory, routeReply, hok, heb, catchResponse]
      · simp [handleGenerateStory, routeReply, hok, heb, catchResponse]
      · exact ⟨Json.str (if m = "" then "Internal server error" else m),
          by simp [handleGenerateStory, routeReply, hok, heb, catchResponse]⟩

/-- C7: the health endpoint always answers 200 with the constant payload
`status: "ok"`, `message` a string, independently of the proxy state. -/
theorem health_constant_ok (cfg : ServerConfig) :
    handleHealth cfg = ⟨200, Json.obj [("status", Json.str "ok"),
        ("message", Json.str "Phish Story Backend is running!")]⟩
    ∧ (handleHealth cfg).status = 200
    ∧ ∀ cfg2, handleHealth cfg = handleHealth cfg2 :=
  ⟨rfl, rfl, fun _ => rfl⟩

/-- C8: serving a sequence of requests leaves the process state unchanged
at every step, and each response is a function of that request's body and
upstream reply alone — the handler persists nothing across requests. -/
theorem proxy_requests_independent (cfg : ServerConfig) (reqs : List (Json × UpstreamReply)) :
    serveAll cfg reqs = reqs.map (fun r => (handleGenerateStory cfg.apiKey r.1 r.2).2)
    ∧ ∀ r, (handleStep cfg r).1 = cfg := by
  refine ⟨?_, fun _ => rfl⟩
  induction reqs with
  | nil => rfl
  | cons r rest ih => simp [serveAll, handleStep, ih]

/-- C9: for a non-success upstream status whose error body is not valid
JSON, the caller gets a 500 carrying the JSON-parse error's message, not
the upstream's status or message. -/
theorem nonjson_error_body_500 (key : String) (body : Json) (status : Nat) (errBody : String)
    (hok : responseOk status = false)
    (hp : parseJson errBody = none) :
    (handleGenerateStory key body ⟨status, errBody⟩).2
      = ⟨500, Json.obj [("error", Json.str jsonParseErrorMsg)]⟩ := by
  simp [handleGenerateStory, routeReply, hok, errorReplyBody, hp, catchResponse,
        jsonParseErrorMsg]

/-- C9 witness: an upstream 401 with a non-JSON error body yields a 500
with the parse error's message. -/
theorem nonjson_error_body_500_witness :
    (handleGenerateStory "key" Json.null ⟨401, "bad gateway text"⟩).2
      = ⟨500, Json.obj [("error", Json.str jsonParseErrorMsg)]⟩ :=
  nonjson_error_body_500 "key" Json.null 401 "bad gateway text" rfl rfl

/-- C10: the response never depends on the credential (noninterference:
any two keys give identical responses for the same request body and
upstream reply), and the credential occurs in the outbound request only
as the value of the `x-api-key` authentication header. -/
theorem credential_noninterference (k1 k2 : String) (body : Json) (reply : UpstreamReply) :
    (handleGenerateStory k1 body reply).2 = (handleGenerateStory k2 body reply).2
    ∧ (mkChatRequest k1 body).headers
      = [("Content-Type", "application/json"), ("x-api-key", k1), ("anthropic-version", "2023-06-01")] :=
  ⟨rfl, rfl⟩

end PhishBI
